import Mathlib

/-
Shallow embedding of the native bridge in src/native/src/lib.rs.

The bridge marshals byte buffers between a JS host and an opaque engine
(giganotes_core), and polls an mpsc channel of byte events with a bounded
100 ms wait.  Byte payloads are modelled as lists of naturals; the mpsc
channel of events is modelled by its buffered queue together with a flag
recording whether the sending side is still alive (std mpsc semantics:
a receive first drains buffered messages, and reports disconnection only
once the buffer is empty and every sender has been dropped).
-/

/-- Byte payloads (Rust Vec of u8 / JS ArrayBuffer contents). -/
abbrev Bytes := List Nat

/-- State of the mpsc event channel seen from the receive end:
the queue of buffered events and whether a sender is still alive. -/
structure Channel where
  queue : List Bytes
  senderAlive : Bool
deriving DecidableEq

/-- Outcome of rx.recv_timeout, mirroring std RecvTimeoutError. -/
inductive RecvTimeoutResult where
  | ok (payload : Bytes)
  | timeout
  | disconnected
deriving DecidableEq

/-- rx.recv_timeout with the 100 ms bound, for a window in which the
producer sends nothing further: a buffered event is returned at once;
an empty queue with a live sender times out after 100 ms; an empty
queue with the sender dropped reports disconnection. -/
def recvTimeout (c : Channel) : RecvTimeoutResult × Channel :=
  match c.queue with
  | p :: rest => (.ok p, { c with queue := rest })
  | [] => if c.senderAlive then (.timeout, c) else (.disconnected, c)

/-- The external producer sends one event (only possible while alive). -/
def produce (c : Channel) (p : Bytes) : Channel :=
  if c.senderAlive then { c with queue := c.queue ++ [p] } else c

/-- Outcome of Mutex lock on the receiver: acquired, or poisoned (the
only way std Mutex lock returns Err). -/
inductive LockResult where
  | acquired
  | poisoned
deriving DecidableEq

/-- EventEmitterTask.perform (lib.rs lines 81-93): acquire the lock on
the receiver (failure is surfaced as the lock error string), then
recv_timeout for at most 100 ms; an event maps to Ok(Some event),
a timeout to Ok(None), disconnection to the receive error string. -/
def EventEmitterTask.perform (lock : LockResult) (c : Channel) :
    Except String (Option Bytes) × Channel :=
  match lock with
  | .poisoned => (.error "Could not obtain lock on receiver", c)
  | .acquired =>
    match recvTimeout c with
    | (.ok event, c2) => (.ok (some event), c2)
    | (.timeout, c2) => (.ok none, c2)
    | (.disconnected, c2) => (.error "Failed to receive event", c2)

/-- writeFrom buf i v: the copy loop `for (i, x) in v.iter().enumerate()
\x7b data[i] = *x; \x7d` writing v into buf starting at index i; an
out-of-bounds write is a Rust panic, modelled as none. -/
def writeFrom : List Nat → Nat → List Nat → Option (List Nat)
  | buf, _, [] => some buf
  | buf, i, x :: rest =>
    if i < buf.length then writeFrom (buf.set i x) (i + 1) rest else none

/-- JsArrayBuffer::new(&mut cx, v.len() as u32) followed by the byte
copy loop: the buffer length is the Vec length narrowed to u32 (the
`as u32` cast in lib.rs lines 32, 54 and 120), then every byte of v is
written into it; a write past the buffer end panics (none). -/
def jsArrayBufferOfVec (v : Bytes) : Option Bytes :=
  writeFrom (List.replicate (v.length % 2 ^ 32) 0) 0 v

/-- A JS value delivered to the poll callback. -/
inductive JsOutcome where
  | thrown (msg : String)
  | undef
  | obj (event : String) (data : Bytes)
deriving DecidableEq

/-- EventEmitterTask.complete (lib.rs lines 98-132): an error from
perform is thrown; Ok(None) (timeout) returns undefined; Ok(Some v)
builds the object with field event = "coreEvent" and field data = the
freshly copied ArrayBuffer (none records the panic of the copy loop). -/
def EventEmitterTask.complete : Except String (Option Bytes) → Option JsOutcome
  | .error msg => some (.thrown msg)
  | .ok none => some .undef
  | .ok (some v) => (jsArrayBufferOfVec v).map (JsOutcome.obj "coreEvent")

/-- A JS number argument as read by cx.argument JsNumber (an f64):
NaN, an infinity, or a finite value (every finite double is rational). -/
inductive JsNumber where
  | nan
  | posInf
  | negInf
  | finite (q : ℚ)

/-- Truncation toward zero, the rounding used by a Rust float-to-int
`as` cast. -/
def ratTruncTowardZero (q : ℚ) : Int :=
  if 0 ≤ q then ⌊q⌋ else ⌈q⌉

/-- The `as i8` cast applied to the f64 command code (lib.rs lines 25
and 47): Rust float-to-int casts saturate — NaN maps to 0, values whose
truncation lies outside i8 clamp to the nearest bound. -/
def f64_as_i8 (x : JsNumber) : Int :=
  match x with
  | .nan => 0
  | .posInf => 127
  | .negInf => -128
  | .finite q => max (-128) (min 127 (ratTruncTowardZero q))

/-- handle_core_command (lib.rs lines 22-41), with the opaque engine
entry point handle_command abstracted as a parameter: read the input
buffer, narrow the JS number to i8, call the engine with the bytes and
their length, and copy the result Vec into a fresh ArrayBuffer. -/
def handle_core_command (handle_command : Int → Bytes → Nat → Bytes)
    (code : JsNumber) (input : Bytes) : Option Bytes :=
  let command_index := f64_as_i8 code
  let v := handle_command command_index input input.length
  jsArrayBufferOfVec v

/-- handle_async_core_command (lib.rs lines 44-63), with the opaque
engine entry point handle_async_command abstracted as a parameter; the
body mirrors handle_core_command line for line. -/
def handle_async_core_command (handle_async_command : Int → Bytes → Nat → Bytes)
    (code : JsNumber) (input : Bytes) : Option Bytes :=
  let command_index := f64_as_i8 code
  let v := handle_async_command command_index input input.length
  jsArrayBufferOfVec v

/-- State of the mpsc shutdown channel seen from the send end: whether
the receiver is still alive, and the notifications buffered so far. -/
structure ShutdownChannel where
  receiverAlive : Bool
  pending : List Unit
deriving DecidableEq

/-- sender.send(()): succeeds and buffers the message while the
receiver is alive; fails with the std SendError display string once the
receiver has been dropped. -/
def sendSignal (c : ShutdownChannel) : Except String ShutdownChannel :=
  if c.receiverAlive then .ok { c with pending := c.pending ++ [()] }
  else .error "sending on a closed channel"

/-- mpsc::channel() as produced in init: both ends freshly created. -/
def freshShutdownChannel : ShutdownChannel :=
  { receiverAlive := true, pending := [] }

/-- Dropping the receive end of the shutdown channel. -/
def dropReceiver (c : ShutdownChannel) : ShutdownChannel :=
  { c with receiverAlive := false }

/-- The EventEmitter struct (lib.rs lines 136-145). -/
structure EventEmitter where
  events : Channel
  shutdown : ShutdownChannel
deriving DecidableEq

/-- JsEventEmitter init (lib.rs lines 153-164): creates the shutdown
channel pair, but the line wiring shutdown_rx into a worker thread is
commented out, so shutdown_rx goes out of scope and is dropped before
init returns; events is a clone of the process-wide WORKER receiver,
passed here as a parameter. -/
def JsEventEmitter.init (worker : Channel) : EventEmitter :=
  { events := worker
    shutdown := dropReceiver freshShutdownChannel }

/-- JsEventEmitter shutdown (lib.rs lines 188-196): send () on the
shutdown sender; a send error is thrown to the caller, success returns
undefined (modelled as the updated emitter). -/
def JsEventEmitter.shutdownMethod (e : EventEmitter) : Except String EventEmitter :=
  match sendSignal e.shutdown with
  | .ok s2 => .ok { e with shutdown := s2 }
  | .error msg => .error msg

/-- n sequential, non-overlapping poll tasks, each acquiring the lock
and performing one bounded receive: the list of task results in order,
with the final channel state. -/
def runPolls : Nat → Channel → List (Except String (Option Bytes)) × Channel
  | 0, c => ([], c)
  | n + 1, c =>
    let (r, c2) := EventEmitterTask.perform .acquired c
    let (rs, c3) := runPolls n c2
    (r :: rs, c3)

/-! Helper lemmas about the buffer copy loop. -/

lemma writeFrom_exact (v : List Nat) :
    ∀ (pre tail : List Nat), v.length ≤ tail.length →
      writeFrom (pre ++ tail) pre.length v =
        some (pre ++ v ++ tail.drop v.length) := by
  induction v with
  | nil =>
    intro pre tail _
    simp [writeFrom]
  | cons x rest ih =>
    intro pre tail h
    cases tail with
    | nil => simp at h
    | cons t0 ts =>
      have hlt : pre.length < (pre ++ t0 :: ts).length := by simp
      have hr : rest.length ≤ ts.length := by simpa using h
      simp only [writeFrom, if_pos hlt]
      have hset : (pre ++ t0 :: ts).set pre.length x = (pre ++ [x]) ++ ts := by
        simp [List.set_append]
      have hlen1 : pre.length + 1 = (pre ++ [x]).length := by simp
      rw [hset, hlen1, ih (pre ++ [x]) ts hr]
      simp

lemma writeFrom_overflow (v : List Nat) :
    ∀ (buf : List Nat) (i : Nat), v ≠ [] → buf.length < i + v.length →
      writeFrom buf i v = none := by
  induction v with
  | nil =>
    intro buf i hne _
    exact absurd rfl hne
  | cons x rest ih =>
    intro buf i _ hlen
    by_cases hi : i < buf.length
    · simp only [writeFrom, if_pos hi]
      cases rest with
      | nil =>
        exact absurd hlen (by simp; omega)
      | cons y ys =>
        apply ih _ (i + 1) (by simp)
        simp only [List.length_set, List.length_cons]
        simp at hlen
        omega
    · simp only [writeFrom, if_neg hi]

lemma jsArrayBufferOfVec_of_lt (v : Bytes) (h : v.length < 2 ^ 32) :
    jsArrayBufferOfVec v = some v := by
  unfold jsArrayBufferOfVec
  rw [Nat.mod_eq_of_lt h]
  have hw := writeFrom_exact v [] (List.replicate v.length 0) (by simp)
  simpa using hw

lemma jsArrayBufferOfVec_of_ge (v : Bytes) (h : 2 ^ 32 ≤ v.length) :
    jsArrayBufferOfVec v = none := by
  unfold jsArrayBufferOfVec
  apply writeFrom_overflow
  · intro hv
    rw [hv] at h
    simp at h
  · simp only [List.length_replicate]
    have hm : v.length % 2 ^ 32 < 2 ^ 32 := Nat.mod_lt _ (by norm_num)
    omega

lemma jsArrayBufferOfVec_eq_some {v buf : Bytes}
    (h : jsArrayBufferOfVec v = some buf) : buf = v := by
  by_cases hl : v.length < 2 ^ 32
  · rw [jsArrayBufferOfVec_of_lt v hl] at h
    exact (Option.some.injEq _ _ ▸ h).symm
  · rw [jsArrayBufferOfVec_of_ge v (by omega)] at h
    exact absurd h (by simp)

lemma complete_ok_some (v : Bytes) :
    EventEmitterTask.complete (.ok (some v)) =
      (jsArrayBufferOfVec v).map (JsOutcome.obj "coreEvent") := rfl

lemma handle_core_command_eq (engine : Int → Bytes → Nat → Bytes)
    (code : JsNumber) (input : Bytes) :
    handle_core_command engine code input =
      jsArrayBufferOfVec (engine (f64_as_i8 code) input input.length) := rfl

lemma handle_async_core_command_eq (engine : Int → Bytes → Nat → Bytes)
    (code : JsNumber) (input : Bytes) :
    handle_async_core_command engine code input =
      jsArrayBufferOfVec (engine (f64_as_i8 code) input input.length) := rfl

lemma runPolls_succ (n : Nat) (c : Channel) :
    runPolls (n + 1) c =
      ((EventEmitterTask.perform .acquired c).1 ::
          (runPolls n (EventEmitterTask.perform .acquired c).2).1,
        (runPolls n (EventEmitterTask.perform .acquired c).2).2) := rfl

/-- C1: a poll task whose bounded 100 ms receive elapses with no event
available completes with a success outcome, the callback is invoked
with the explicit undefined value (not a thrown error), and the poll
remains retriable: the channel state is unchanged, and once the
producer sends an event, a subsequent poll task receives it. -/
theorem c1_timeout_poll_succeeds_with_undefined (c : Channel)
    (hq : c.queue = []) (hs : c.senderAlive = true) :
    EventEmitterTask.perform .acquired c = (.ok none, c) ∧
    EventEmitterTask.complete (.ok none) = some .undef ∧
    ∀ p, (EventEmitterTask.perform .acquired (produce c p)).1 = .ok (some p) := by
  obtain ⟨q, s⟩ := c
  simp only [Channel.queue] at hq
  simp only [Channel.senderAlive] at hs
  subst hq
  subst hs
  refine ⟨rfl, rfl, ?_⟩
  intro p
  rfl

/-- C1 witness: the timeout outcome and the retried poll on an empty
live channel, at the concrete payload [1, 2, 3]. -/
theorem c1_timeout_poll_succeeds_with_undefined_witness :
    EventEmitterTask.perform .acquired ⟨[], true⟩ = (.ok none, ⟨[], true⟩) ∧
    EventEmitterTask.complete (.ok none) = some .undef ∧
    (EventEmitterTask.perform .acquired (produce ⟨[], true⟩ [1, 2, 3])).1 =
      .ok (some [1, 2, 3]) := by
  obtain ⟨h1, h2, h3⟩ := c1_timeout_poll_succeeds_with_undefined ⟨[], true⟩ rfl rfl
  exact ⟨h1, h2, h3 [1, 2, 3]⟩

/-- C2 counterexample: a poll task executed after the producer side has
been closed does NOT always receive a failure result: with one event
still buffered at close time (producer sent [1] and was then dropped),
the task returns the event and the callback receives the success object
with event "coreEvent" and data [1], not a disconnection error. -/
theorem c2_counterexample :
    (Channel.mk [[1]] false).senderAlive = false ∧
    EventEmitterTask.perform .acquired (Channel.mk [[1]] false) =
      (.ok (some [1]), Channel.mk [] false) ∧
    EventEmitterTask.complete
        (EventEmitterTask.perform .acquired (Channel.mk [[1]] false)).1 =
      some (.obj "coreEvent" [1]) :=
  ⟨rfl, rfl, rfl⟩

/-- C2 amended: once the producer side is closed AND the channel buffer
has been drained, every subsequent poll task fails its receive with the
disconnection error string, the callback receives that thrown error
(never undefined and never a success object), and the state is
unchanged, so any number of further sequential polls all fail the same
way. -/
theorem c2_amended_disconnected_terminal (c : Channel)
    (hs : c.senderAlive = false) (hq : c.queue = []) :
    EventEmitterTask.perform .acquired c = (.error "Failed to receive event", c) ∧
    EventEmitterTask.complete (.error "Failed to receive event") =
      some (.thrown "Failed to receive event") ∧
    ∀ n, (runPolls n c).1 = List.replicate n (.error "Failed to receive event") := by
  obtain ⟨q, s⟩ := c
  simp only [Channel.queue] at hq
  simp only [Channel.senderAlive] at hs
  subst hq
  subst hs
  refine ⟨rfl, rfl, ?_⟩
  intro n
  induction n with
  | zero => rfl
  | succ m ih =>
    rw [runPolls_succ, List.replicate_succ]
    exact congrArg _ ih

/-- C2 amended witness: on the closed, drained channel the poll task
errors and three sequential polls all deliver the same thrown error. -/
theorem c2_amended_disconnected_terminal_witness :
    EventEmitterTask.perform .acquired ⟨[], false⟩ =
      (.error "Failed to receive event", ⟨[], false⟩) ∧
    EventEmitterTask.complete (.error "Failed to receive event") =
      some (.thrown "Failed to receive event") ∧
    (runPolls 3 ⟨[], false⟩).1 =
      List.replicate 3 (.error "Failed to receive event") := by
  obtain ⟨h1, h2, h3⟩ := c2_amended_disconnected_terminal ⟨[], false⟩ rfl rfl
  exact ⟨h1, h2, h3 3⟩

/-- C7: a poll task whose lock acquisition on the receive end fails is
surfaced to the callback as the acquisition-failure error; no receive
is attempted (the channel state is untouched) and nothing is retried. -/
theorem c7_lock_failure_surfaced (c : Channel) :
    EventEmitterTask.perform .poisoned c =
      (.error "Could not obtain lock on receiver", c) ∧
    EventEmitterTask.complete (.error "Could not obtain lock on receiver") =
      some (.thrown "Could not obtain lock on receiver") :=
  ⟨rfl, rfl⟩

/-- C3 counterexample: the data buffer is allocated with the payload
length cast to u32, so for the concrete payload of 2 ^ 32 zero bytes
the buffer is empty and the copy loop panics (delivers nothing): the
callback is NOT invoked with a buffer of length 2 ^ 32 equal to the
payload. -/
theorem c3_counterexample :
    EventEmitterTask.complete (.ok (some (List.replicate (2 ^ 32) 0))) = none := by
  rw [complete_ok_some, jsArrayBufferOfVec_of_ge _ (by rw [List.length_replicate])]
  rfl

/-- C3 amended: for every event payload p of fewer than 2 ^ 32 bytes
(the ArrayBuffer length is a 32-bit value), the callback is invoked
with a success object whose event field is "coreEvent" and whose data
field equals p byte for byte (hence has length exactly the length of
p); and whenever any object at all is delivered, its data equals the
payload exactly, never truncated or padded. -/
theorem c3_amended_event_delivered (p : Bytes) (h : p.length < 2 ^ 32) :
    EventEmitterTask.complete (.ok (some p)) = some (.obj "coreEvent" p) ∧
    ∀ ev d, EventEmitterTask.complete (.ok (some p)) = some (.obj ev d) → d = p := by
  constructor
  · simp [EventEmitterTask.complete, jsArrayBufferOfVec_of_lt p h]
  · intro ev d hd
    simp [EventEmitterTask.complete, jsArrayBufferOfVec_of_lt p h] at hd
    exact hd.2.symm

/-- C3 amended witness: the concrete payload [7, 8, 9] is delivered as
the object with event "coreEvent" and data [7, 8, 9]. -/
theorem c3_amended_event_delivered_witness :
    EventEmitterTask.complete (.ok (some [7, 8, 9])) =
      some (.obj "coreEvent" [7, 8, 9]) :=
  (c3_amended_event_delivered [7, 8, 9] (by norm_num)).1

/-- C4 counterexample: an engine result of 2 ^ 32 bytes makes the
output ArrayBuffer length wrap to 0 (the `as u32` cast) and the copy
loop panic, so invoke returns no buffer at all, contradicting the claim
that a buffer of length exactly L is returned for every engine result
of length L. -/
theorem c4_counterexample :
    handle_core_command (fun _ _ _ => List.replicate (2 ^ 32) 0)
      JsNumber.nan [] = none := by
  rw [handle_core_command_eq]
  exact jsArrayBufferOfVec_of_ge _ (by rw [List.length_replicate])

/-- C4 amended: for every engine, command code and input buffer, if the
engine result has fewer than 2 ^ 32 bytes then invoke and invokeAsync
return a fresh buffer equal to the engine result byte for byte (hence
of length exactly L); and whatever buffer either entry point ever
returns equals the engine result exactly — never truncated or padded
(an oversized result panics instead of returning). -/
theorem c4_amended_round_trip (engine : Int → Bytes → Nat → Bytes)
    (code : JsNumber) (input : Bytes) :
    ((engine (f64_as_i8 code) input input.length).length < 2 ^ 32 →
      handle_core_command engine code input =
        some (engine (f64_as_i8 code) input input.length) ∧
      handle_async_core_command engine code input =
        some (engine (f64_as_i8 code) input input.length)) ∧
    (∀ buf, handle_core_command engine code input = some buf →
      buf = engine (f64_as_i8 code) input input.length) ∧
    (∀ buf, handle_async_core_command engine code input = some buf →
      buf = engine (f64_as_i8 code) input input.length) := by
  refine ⟨fun h => ⟨?_, ?_⟩, fun buf h => ?_, fun buf h => ?_⟩
  · exact jsArrayBufferOfVec_of_lt _ h
  · exact jsArrayBufferOfVec_of_lt _ h
  · exact jsArrayBufferOfVec_eq_some h
  · exact jsArrayBufferOfVec_eq_some h

/-- C4 amended witness: a concrete engine returning [42] round-trips
through both entry points as the buffer [42]. -/
theorem c4_amended_round_trip_witness :
    handle_core_command (fun _ _ _ => [42]) JsNumber.nan [] = some [42] ∧
    handle_async_core_command (fun _ _ _ => [42]) JsNumber.nan [] = some [42] :=
  (c4_amended_round_trip (fun _ _ _ => [42]) JsNumber.nan []).1 (by norm_num)

/-- C8: with the opaque engine abstracted as a common parameter, invoke
and invokeAsync are the same operation: identical marshaling, differing
only in which engine entry point is substituted. -/
theorem c8_sync_async_identical (engine : Int → Bytes → Nat → Bytes)
    (code : JsNumber) (input : Bytes) :
    handle_core_command engine code input =
      handle_async_core_command engine code input := rfl

lemma runPolls_one (p : Bytes) :
    runPolls 1 ⟨[p], true⟩ = ([Except.ok (some p)], ⟨[], true⟩) := rfl

/-- C9 counterexample: the claim fails for a sequence containing an
event of 2 ^ 32 bytes: with N = 1 such produced event and 1 sequential
poll, the event is consumed from the channel but its completion panics
in the buffer copy (the `as u32` length cast) and produces no callback
value at all — the event is delivered to zero callbacks, not exactly
one. -/
theorem c9_counterexample :
    (runPolls 1 ⟨[List.replicate (2 ^ 32) 0], true⟩).1.map
        EventEmitterTask.complete = [none] ∧
    (runPolls 1 ⟨[List.replicate (2 ^ 32) 0], true⟩).2 = ⟨[], true⟩ := by
  constructor
  · rw [runPolls_one, List.map_cons, List.map_nil, complete_ok_some,
      jsArrayBufferOfVec_of_ge _ (by rw [List.length_replicate])]
    rfl
  · rw [runPolls_one]

/-- C9 amended: for a channel holding N produced events, each smaller
than 2 ^ 32 bytes (the ArrayBuffer length is a 32-bit value; an
oversized event is consumed but panics in complete and reaches no
callback), and a live producer, N sequential non-overlapping poll
tasks deliver exactly the produced events, in production order,
draining the queue (no duplication, no loss), and each callback
receives the corresponding success object, in the same order. -/
theorem c9_fifo_exactly_once (events : List Bytes)
    (h : ∀ e ∈ events, e.length < 2 ^ 32) :
    (runPolls events.length ⟨events, true⟩).1 =
      events.map (fun e => Except.ok (some e)) ∧
    (runPolls events.length ⟨events, true⟩).2 = ⟨[], true⟩ ∧
    (runPolls events.length ⟨events, true⟩).1.map EventEmitterTask.complete =
      events.map (fun e => some (JsOutcome.obj "coreEvent" e)) := by
  have main : ∀ evs : List Bytes,
      (runPolls evs.length ⟨evs, true⟩).1 =
        evs.map (fun e => Except.ok (some e)) ∧
      (runPolls evs.length ⟨evs, true⟩).2 = ⟨[], true⟩ := by
    intro evs
    induction evs with
    | nil => exact ⟨rfl, rfl⟩
    | cons e rest ih =>
      have hp : EventEmitterTask.perform .acquired ⟨e :: rest, true⟩ =
          (.ok (some e), ⟨rest, true⟩) := rfl
      constructor
      · rw [List.length_cons, runPolls_succ, hp, List.map_cons]
        exact congrArg _ ih.1
      · rw [List.length_cons, runPolls_succ, hp]
        exact ih.2
  refine ⟨(main events).1, (main events).2, ?_⟩
  rw [(main events).1, List.map_map]
  refine List.map_congr_left ?_
  intro e he
  show EventEmitterTask.complete (.ok (some e)) = _
  rw [complete_ok_some, jsArrayBufferOfVec_of_lt e (h e he)]
  rfl

/-- C9 witness: the two events [1] and [2, 3] are delivered by two
sequential polls exactly once each and in production order. -/
theorem c9_fifo_exactly_once_witness :
    (runPolls 2 ⟨[[1], [2, 3]], true⟩).1 =
      [Except.ok (some [1]), Except.ok (some [2, 3])] ∧
    (runPolls 2 ⟨[[1], [2, 3]], true⟩).2 = ⟨[], true⟩ ∧
    (runPolls 2 ⟨[[1], [2, 3]], true⟩).1.map EventEmitterTask.complete =
      [some (JsOutcome.obj "coreEvent" [1]), some (JsOutcome.obj "coreEvent" [2, 3])] := by
  have h := c9_fifo_exactly_once [[1], [2, 3]] (by decide)
  simpa using h

/-- C5: the shutdown send contract. While the receive end is alive,
a shutdown call succeeds (returns without error) and a second call on
the resulting handle succeeds as well; once the receive end is gone,
a shutdown call fails by throwing the send error that names the cause,
and (the state being unchanged by a failed send) the second call is
determined to fail identically. -/
theorem c5_shutdown_send_contract (e : EventEmitter) :
    (e.shutdown.receiverAlive = true →
      ∃ e2, JsEventEmitter.shutdownMethod e = .ok e2 ∧
        ∃ e3, JsEventEmitter.shutdownMethod e2 = .ok e3) ∧
    (e.shutdown.receiverAlive = false →
      JsEventEmitter.shutdownMethod e = .error "sending on a closed channel") := by
  constructor
  · intro h
    refine ⟨{ e with shutdown :=
      { e.shutdown with pending := e.shutdown.pending ++ [()] } }, ?_, ?_⟩
    · simp [JsEventEmitter.shutdownMethod, sendSignal, h]
    · refine ⟨{ e with shutdown :=
        { e.shutdown with pending := (e.shutdown.pending ++ [()]) ++ [()] } }, ?_⟩
      simp [JsEventEmitter.shutdownMethod, sendSignal, h]
  · intro h
    simp [JsEventEmitter.shutdownMethod, sendSignal, h]

/-- C5 witness: on a handle whose shutdown receiver is alive the call
(and a repeat) succeed; on a handle whose receiver is gone the call
throws the send error. -/
theorem c5_shutdown_send_contract_witness :
    (∃ e2, JsEventEmitter.shutdownMethod ⟨⟨[], true⟩, ⟨true, []⟩⟩ = .ok e2 ∧
      ∃ e3, JsEventEmitter.shutdownMethod e2 = .ok e3) ∧
    JsEventEmitter.shutdownMethod ⟨⟨[], true⟩, ⟨false, []⟩⟩ =
      .error "sending on a closed channel" :=
  ⟨(c5_shutdown_send_contract ⟨⟨[], true⟩, ⟨true, []⟩⟩).1 rfl,
   (c5_shutdown_send_contract ⟨⟨[], true⟩, ⟨false, []⟩⟩).2 rfl⟩

/-- C6: the constructor drops the shutdown receive end before
returning (the worker wiring is commented out), so on every handle the
very first shutdown call — and hence every shutdown call — fails its
send and throws the send error to the caller. -/
theorem c6_shutdown_always_throws (worker : Channel) :
    (JsEventEmitter.init worker).shutdown.receiverAlive = false ∧
    JsEventEmitter.shutdownMethod (JsEventEmitter.init worker) =
      .error "sending on a closed channel" :=
  ⟨rfl, rfl⟩

/-- C10: the command-code argument is narrowed from the host f64 to i8
by a saturating cast — finite values above 127 map to 127 (as does
positive infinity), finite values below -128 map to -128 (as does
negative infinity), NaN maps to 0 — and both entry points pass the
narrowed code to the engine for every argument, never rejecting an
out-of-range code with an error. -/
theorem c10_saturating_code_cast :
    (∀ q : ℚ, 127 < q → f64_as_i8 (.finite q) = 127) ∧
    (∀ q : ℚ, q < -128 → f64_as_i8 (.finite q) = -128) ∧
    f64_as_i8 .nan = 0 ∧
    f64_as_i8 .posInf = 127 ∧
    f64_as_i8 .negInf = -128 ∧
    (∀ (engine : Int → Bytes → Nat → Bytes) (code : JsNumber) (input : Bytes),
      handle_core_command engine code input =
        jsArrayBufferOfVec (engine (f64_as_i8 code) input input.length) ∧
      handle_async_core_command engine code input =
        jsArrayBufferOfVec (engine (f64_as_i8 code) input input.length)) := by
  refine ⟨?_, ?_, rfl, rfl, rfl, fun engine code input => ⟨rfl, rfl⟩⟩
  · intro q hq
    have h0 : (0 : ℚ) ≤ q := by linarith
    have hfl : (127 : Int) ≤ ⌊q⌋ := Int.le_floor.mpr (by exact_mod_cast hq.le)
    simp only [f64_as_i8, ratTruncTowardZero, if_pos h0]
    rw [min_eq_left hfl, max_eq_right (by norm_num : (-128 : Int) ≤ 127)]
  · intro q hq
    have h0 : ¬ (0 : ℚ) ≤ q := by linarith
    have hc : ⌈q⌉ ≤ (-128 : Int) := Int.ceil_le.mpr (by exact_mod_cast hq.le)
    simp only [f64_as_i8, ratTruncTowardZero, if_neg h0]
    rw [min_eq_right (by omega), max_eq_left hc]

/-- C10 witness: 200 saturates to 127 and -200 saturates to -128. -/
theorem c10_saturating_code_cast_witness :
    f64_as_i8 (.finite 200) = 127 ∧ f64_as_i8 (.finite (-200)) = -128 :=
  ⟨c10_saturating_code_cast.1 200 (by norm_num),
   c10_saturating_code_cast.2.1 (-200) (by norm_num)⟩
